import Mathlib

/-!
# Verification of REM-MetaData (`src/main.py`)

A shallow embedding of the image metadata-removal program. The program has
two components:

* `remove_all_metadata` (the Sanitizer): given `(input_path, output_folder)`,
  classifies the file with `imghdr.what`, generates a random output filename,
  decodes and re-encodes the image through Pillow, then performs best-effort
  cleanup (piexif strip for JPEGs, `xattr -c` on POSIX, `os.utime` to epoch),
  returning a `(success, basename, error)` triple.  All of the function body
  sits inside a `try`/`except Exception` that converts any escaping exception
  into a failed triple.

* `process_folder` (the Dispatcher): creates the output directory, enumerates
  the input directory, filters to regular files that `imghdr` recognizes,
  runs the Sanitizer over them with `multiprocessing.Pool(...).map`, and
  aggregates the results into a printed summary.

The embedding makes the environment explicit: each I/O or library call that
can fail or return data is a field of an environment record (`SanitizerEnv`,
`DispatcherEnv`), carrying either its result or the exception it raises
(`Except String _`, the `String` being Python's `str(e)`).  The Lean
functions below mirror the Python control flow over those fields.

Library semantics that the source relies on and that the embedding encodes:

* `subprocess.run([...], check=True)` raises `CalledProcessError` on a
  nonzero exit status, but raises `FileNotFoundError` (an `OSError`, not a
  `CalledProcessError`) when the executable is absent — modelled by
  `SubprocessOutcome`.
* `multiprocessing.Pool(processes=n)` raises
  `ValueError("Number of processes must be at least 1")` when `n < 1`
  (CPython `multiprocessing/pool.py`), and `Pool.map` applies the function
  to every element, returning results in input order.
-/

deriving instance DecidableEq for Except

/-- The triple returned by `remove_all_metadata`:
`(success, os.path.basename(input_path), error_message)`. -/
structure TaskResult where
  success : Bool
  filename : String
  errorMessage : Option String
  deriving DecidableEq

/-- Characters of the basename: scan the path, restarting the accumulator
after every `'/'`, so that the characters after the last slash remain. -/
def basenameChars : List Char → List Char → List Char
  | [], acc => acc.reverse
  | c :: cs, acc => if c = '/' then basenameChars cs [] else basenameChars cs (c :: acc)

/-- `os.path.basename` for POSIX paths: everything after the final slash
(`posixpath.basename`: `p[p.rfind('/') + 1:]`). -/
def basename (p : String) : String :=
  String.mk (basenameChars p.data [])

/-- `os.path.join` for POSIX paths (`posixpath.join` for two components):
`b` if `b` is absolute, `a + b` if `a` is empty or ends with a slash,
otherwise `a + "/" + b`. -/
def joinPath (a b : String) : String :=
  if b.data.head? = some '/' then b
  else if a = "" then b
  else if a.data.getLast? = some '/' then a ++ b
  else a ++ "/" ++ b

/-- Python's `string.ascii_letters`. -/
def ascii_letters : String :=
  "abcdefghijklmnopqrstuvwxyzABCDEFGHIJKLMNOPQRSTUVWXYZ"

/-- Python's `string.digits`. -/
def string_digits : String := "0123456789"

/-- The population `string.ascii_letters + string.digits` from which
`random_string` samples. -/
def alphabet : List Char := (ascii_letters ++ string_digits).toList

/-- `random_string(length)`: `''.join(random.choices(alphabet, k=length))`.
The random source is modelled as a function `pick` giving the index drawn
at each of the `length` positions.  The Python default for `length` is 20,
and both call sites use the default. -/
def random_string (pick : Nat → Fin alphabet.length) (length : Nat) : String :=
  String.mk ((List.range length).map (fun i => alphabet.get (pick i)))

/-- Outcome of `subprocess.run(["xattr", "-c", path], check=True, ...)`:
the process ran and exited 0; it ran and exited nonzero (`check=True`
raises `CalledProcessError`); or the call itself raised some other
exception, e.g. `FileNotFoundError` when the `xattr` executable is absent. -/
inductive SubprocessOutcome where
  | ok
  | calledProcessError
  | raised (msg : String)
  deriving DecidableEq

/-- The environment of one `remove_all_metadata` call: the result (or the
raised exception's `str`) of each external call the function body makes,
plus the random source, `os.name`, and the contents of the output
directory (which the function receives implicitly through the filesystem
but never reads). -/
structure SanitizerEnv where
  /-- `imghdr.what(input_path)`: the detected type, `None`, or a raised
  exception (e.g. `FileNotFoundError` for a missing input file). -/
  imghdrResult : Except String (Option String)
  /-- The task-local random source consumed by `random_string`. -/
  pick : Nat → Fin alphabet.length
  /-- `Image.open(input_path)` + `getdata`/`new`/`putdata`: decode of the
  source into a fresh pixel-only image, or the exception it raises. -/
  decodeResult : Except String Unit
  /-- `img_without_metadata.save(output_path, optimize=True, compress_level=9)`. -/
  saveResult : Except String Unit
  /-- `piexif.remove(output_path)` (only reached for jpg/jpeg). -/
  piexifResult : Except String Unit
  /-- `os.name` (`"posix"` on POSIX hosts). -/
  osName : String
  /-- The `subprocess.run(["xattr", "-c", output_path], check=True, ...)` call. -/
  xattrOutcome : SubprocessOutcome
  /-- `os.utime(output_path, (0, 0))`. -/
  utimeResult : Except String Unit
  /-- Names already present in the output directory. The source never
  consults them (no collision check), so no other field depends on them. -/
  outputDirContents : List String

/-- The observable outcome of one `remove_all_metadata` call: the returned
triple, the output filename generated (once classification succeeded), and
whether the save step (the only step that creates the output file) was
reached. -/
structure SanitizerOutput where
  result : TaskResult
  outputFilename : Option String
  saveAttempted : Bool
  deriving DecidableEq

/-- `remove_all_metadata(input_tuple)` from `src/main.py`.

Control flow of the source, line by line: unpack the tuple; inside
`try:` — classify with `imghdr.what`, returning the
`"Unsupported or invalid image file"` failure when it yields `None`;
build `output_filename = f"{random_string()}.{image_type}"` and
`output_path = os.path.join(output_folder, output_filename)`; decode and
re-encode with Pillow; `save`; for jpg/jpeg run `piexif.remove` under
`try/except Exception: pass`; on POSIX run `xattr -c` under
`try/except subprocess.CalledProcessError: pass` (so any *other*
exception from that call escapes to the outer handler); reset timestamps
under `try/except Exception: pass`; return the success triple.  The outer
`except Exception as e:` returns `(False, basename, str(e))`. -/
def remove_all_metadata (env : SanitizerEnv) (input_tuple : String × String) :
    SanitizerOutput :=
  let input_path := input_tuple.1
  let output_folder := input_tuple.2
  match env.imghdrResult with
  | Except.error e =>
      -- `imghdr.what` raised; caught by the outer handler.
      ⟨⟨false, basename input_path, some e⟩, none, false⟩
  | Except.ok none =>
      ⟨⟨false, basename input_path, some "Unsupported or invalid image file"⟩,
        none, false⟩
  | Except.ok (some image_type) =>
      let output_filename := random_string env.pick 20 ++ "." ++ image_type
      let _output_path := joinPath output_folder output_filename
      match env.decodeResult with
      | Except.error e => ⟨⟨false, basename input_path, some e⟩, some output_filename, false⟩
      | Except.ok _ =>
          match env.saveResult with
          | Except.error e => ⟨⟨false, basename input_path, some e⟩, some output_filename, true⟩
          | Except.ok _ =>
              -- `piexif.remove` for jpg/jpeg: every exception is swallowed
              -- by `except Exception: pass`, so the outcome is discarded.
              let _piexif : Unit :=
                if image_type = "jpg" ∨ image_type = "jpeg" then
                  match env.piexifResult with
                  | Except.ok _ => ()
                  | Except.error _ => ()
                else ()
              if env.osName = "posix" then
                match env.xattrOutcome with
                | SubprocessOutcome.raised e =>
                    -- Not a `CalledProcessError`: escapes the inner handler,
                    -- caught by the outer `except Exception`.
                    ⟨⟨false, basename input_path, some e⟩, some output_filename, true⟩
                | _ =>
                    -- Exit 0, or nonzero exit swallowed by the inner handler.
                    let _utime : Unit :=
                      match env.utimeResult with
                      | Except.ok _ => ()
                      | Except.error _ => ()
                    ⟨⟨true, basename input_path, none⟩, some output_filename, true⟩
              else
                let _utime : Unit :=
                  match env.utimeResult with
                  | Except.ok _ => ()
                  | Except.error _ => ()
                ⟨⟨true, basename input_path, none⟩, some output_filename, true⟩

/-- One entry of `os.listdir(input_folder)` together with what the
filesystem says about it during enumeration: whether
`os.path.isfile(input_path)` holds, and what `imghdr.what(input_path)`
returns (or raises) at that moment. -/
structure DirEntry where
  name : String
  isFile : Bool
  classifyResult : Except String (Option String)
  deriving DecidableEq

/-- The environment of one `process_folder` call. -/
structure DispatcherEnv where
  /-- `os.makedirs(output_folder, exist_ok=True)`. -/
  mkdirsResult : Except String Unit
  /-- `os.listdir(input_folder)` with per-entry filesystem answers. -/
  entries : List DirEntry
  /-- `multiprocessing.cpu_count()`. -/
  cpuCount : Nat
  /-- The environment each worker's `remove_all_metadata` call runs in,
  indexed by its task tuple. -/
  taskEnv : String × String → SanitizerEnv

/-- One iteration of the enumeration loop of `process_folder`: `some task`
when the entry is appended to `image_files`, `none` when the loop moves on
without it — because `os.path.isfile` is false (`continue`), because
`imghdr.what` returned `None` (the `if image_type:` guard fails), or
because `imghdr.what` raised (`except Exception: continue`). -/
def entryTask (input_folder output_folder : String) (e : DirEntry) :
    Option (String × String) :=
  let input_path := joinPath input_folder e.name
  if e.isFile then
    match e.classifyResult with
    | Except.ok (some _) => some (input_path, output_folder)
    | Except.ok none => none
    | Except.error _ => none
  else none

/-- The enumeration loop of `process_folder`, over all listed entries. -/
def collect_image_files (input_folder output_folder : String)
    (entries : List DirEntry) : List (String × String) :=
  entries.filterMap (entryTask input_folder output_folder)

/-- `num_processes = min(cpu_count(), len(image_files))`. -/
def num_processes (cpuCount : Nat) (image_files : List (String × String)) : Nat :=
  min cpuCount image_files.length

/-- `pool.map(remove_all_metadata, image_files)`: applies the Sanitizer to
every task, returning the triples in input order. -/
def pool_map_results (env : DispatcherEnv) (image_files : List (String × String)) :
    List TaskResult :=
  image_files.map (fun t => (remove_all_metadata (env.taskEnv t) t).result)

/-- The printed summary of `process_folder`: total, success and failure
counts, and the `(filename, error)` pairs listed for the failed files. -/
structure Summary where
  total : Nat
  successCount : Nat
  failureCount : Nat
  failures : List (String × Option String)
  deriving DecidableEq

/-- `process_folder(input_folder, output_folder)` from `src/main.py`.

`os.makedirs` failure propagates (nothing catches it).  The enumeration
builds `image_files`; `num_processes = min(cpu_count(), len(image_files))`;
`Pool(processes=num_processes)` raises
`ValueError("Number of processes must be at least 1")` when
`num_processes < 1` (CPython `multiprocessing/pool.py`), which nothing in
`process_folder` catches; otherwise `pool.map` produces one triple per
task, the results are partitioned by the success flag, and the summary is
printed. -/
def process_folder (env : DispatcherEnv) (input_folder output_folder : String) :
    Except String Summary :=
  match env.mkdirsResult with
  | Except.error e => Except.error e
  | Except.ok _ =>
      let image_files := collect_image_files input_folder output_folder env.entries
      let n := num_processes env.cpuCount image_files
      if n < 1 then
        Except.error "Number of processes must be at least 1"
      else
        let results := pool_map_results env image_files
        let successful := results.filter (fun r => r.success)
        let failed := results.filter (fun r => !r.success)
        Except.ok ⟨results.length, successful.length, failed.length,
          failed.map (fun r => (r.filename, r.errorMessage))⟩

/-- A concrete random source: every draw picks index 0 (the character `a`). -/
def pickZero : Nat → Fin alphabet.length := fun _ => ⟨0, by decide⟩

/-- A task environment in which every step succeeds, on a POSIX host. -/
def okEnv : SanitizerEnv :=
  ⟨Except.ok (some "png"), pickZero, Except.ok (), Except.ok (), Except.ok (),
    "posix", SubprocessOutcome.ok, Except.ok (), []⟩

/-- A task environment on a POSIX host where the `xattr` executable is
absent: classification, decode and save all succeed, but
`subprocess.run(["xattr", ...])` raises `FileNotFoundError`. -/
def xattrAbsentEnv : SanitizerEnv :=
  ⟨Except.ok (some "png"), pickZero, Except.ok (), Except.ok (), Except.ok (),
    "posix", SubprocessOutcome.raised "[Errno 2] No such file or directory: 'xattr'",
    Except.ok (), []⟩

/-- A task environment for a zero-byte (or otherwise unclassifiable) input:
`imghdr.what` returns `None`. -/
def unclassifiedEnv : SanitizerEnv :=
  ⟨Except.ok none, pickZero, Except.ok (), Except.ok (), Except.ok (),
    "posix", SubprocessOutcome.ok, Except.ok (), []⟩

/-- A task environment where `Image.open` raises a decode error. -/
def decodeFailEnv : SanitizerEnv :=
  ⟨Except.ok (some "png"), pickZero, Except.error "cannot identify image file",
    Except.ok (), Except.ok (), "posix", SubprocessOutcome.ok, Except.ok (), []⟩

/-- A dispatcher environment for an input directory with no recognized
image files. -/
def emptyDirEnv : DispatcherEnv :=
  ⟨Except.ok (), [], 8, fun _ => okEnv⟩

/-- A dispatcher environment for an input directory holding one recognized
image, one subdirectory, and one unrecognized file. -/
def threeEntryEnv : DispatcherEnv :=
  ⟨Except.ok (),
    [⟨"a.png", true, Except.ok (some "png")⟩,
     ⟨"sub", false, Except.error "IsADirectoryError"⟩,
     ⟨"notes.txt", true, Except.ok none⟩],
    8, fun _ => okEnv⟩

example : (remove_all_metadata okEnv ("input/photo.png", "output")).result =
    ⟨true, "photo.png", none⟩ := rfl
example : (remove_all_metadata okEnv ("input/photo.png", "output")).outputFilename =
    some "aaaaaaaaaaaaaaaaaaaa.png" := rfl
example : (remove_all_metadata xattrAbsentEnv ("input/photo.png", "output")).result.success =
    false := rfl
example : (remove_all_metadata unclassifiedEnv ("input/empty.bin", "output")) =
    ⟨⟨false, "empty.bin", some "Unsupported or invalid image file"⟩, none, false⟩ := rfl
example : process_folder emptyDirEnv "input" "output" =
    Except.error "Number of processes must be at least 1" := rfl
example : process_folder threeEntryEnv "input" "output" =
    Except.ok ⟨1, 1, 0, []⟩ := rfl
example : collect_image_files "input" "output" threeEntryEnv.entries =
    [("input/a.png", "output")] := rfl

/-- Nonemptiness of the exception text an `Except` outcome carries (`str(e)`
of the raised exception); trivially satisfied by non-raising outcomes. -/
def exceptMsgNonempty {α : Type} : Except String α → Prop
  | Except.error e => e ≠ ""
  | Except.ok _ => True

/-- Nonemptiness of the exception text of an escaping subprocess failure. -/
def xattrMsgNonempty : SubprocessOutcome → Prop
  | SubprocessOutcome.raised m => m ≠ ""
  | _ => True

/-- Every exception the environment can raise into the outer handler
carries nonempty `str(e)` text. -/
def envErrorStringsNonempty (env : SanitizerEnv) : Prop :=
  exceptMsgNonempty env.imghdrResult ∧ exceptMsgNonempty env.decodeResult ∧
    exceptMsgNonempty env.saveResult ∧ xattrMsgNonempty env.xattrOutcome

/-- The same sanitizer environment with different output-directory
contents (every other field unchanged). -/
def setDirContents (env : SanitizerEnv) (contents : List String) : SanitizerEnv :=
  ⟨env.imghdrResult, env.pick, env.decodeResult, env.saveResult, env.piexifResult,
    env.osName, env.xattrOutcome, env.utimeResult, contents⟩

/-- An entry the enumeration loop passes over: not a regular file, or
`imghdr.what` returned `None`, or `imghdr.what` raised. -/
def skippedEntry (e : DirEntry) : Prop :=
  e.isFile = false ∨ e.classifyResult = Except.ok none ∨
    ∃ s, e.classifyResult = Except.error s

/-- Claim C1: for every input tuple `(inputPath, outputDir)` and every
environment, `remove_all_metadata` returns exactly one `TaskResult` (it is
a total function into `SanitizerOutput`), and every failure path is
reported as a failed result carrying a nonempty error message — either the
classification message or the `str` of the underlying exception, which are
nonempty whenever the environment's exception texts are. -/
theorem sanitizer_total_reports_all_failures (env : SanitizerEnv)
    (t : String × String) (h : envErrorStringsNonempty env) :
    ((remove_all_metadata env t).result.success = true ∧
      (remove_all_metadata env t).result.errorMessage = none) ∨
    (∃ m, (remove_all_metadata env t).result.success = false ∧
      (remove_all_metadata env t).result.errorMessage = some m ∧ m ≠ "") := by
  obtain ⟨ir, pk, dr, sr, pr, osn, xo, ur, odc⟩ := env
  obtain ⟨h1, h2, h3, h4⟩ := h
  rcases ir with e | _ | ty <;> rcases dr with e2 | u2 <;> rcases sr with e3 | u3 <;>
    rcases xo with _ | _ | m <;> by_cases hosn : osn = "posix" <;>
    simp_all [remove_all_metadata, exceptMsgNonempty, xattrMsgNonempty]

/-- Claim C1 witness: at a concrete environment whose decode step raises a
nonempty exception text, the theorem applies and reports the failure. -/
theorem sanitizer_total_reports_all_failures_witness :
    ((remove_all_metadata decodeFailEnv ("input/broken.png", "output")).result.success = true ∧
      (remove_all_metadata decodeFailEnv ("input/broken.png", "output")).result.errorMessage = none) ∨
    (∃ m, (remove_all_metadata decodeFailEnv ("input/broken.png", "output")).result.success = false ∧
      (remove_all_metadata decodeFailEnv ("input/broken.png", "output")).result.errorMessage = some m ∧
      m ≠ "") :=
  sanitizer_total_reports_all_failures decodeFailEnv ("input/broken.png", "output")
    (by simp [envErrorStringsNonempty, decodeFailEnv, exceptMsgNonempty, xattrMsgNonempty])

/-- Claim C4: when `imghdr.what` returns `None` (as it does for zero-byte
files), the Sanitizer returns the failure triple with exactly the message
`"Unsupported or invalid image file"` and the basename of the input path,
no output filename is generated, and the save step is never reached (no
output file is created). -/
theorem unclassified_input_fails_before_output (env : SanitizerEnv)
    (t : String × String) (h : env.imghdrResult = Except.ok none) :
    remove_all_metadata env t =
      ⟨⟨false, basename t.1, some "Unsupported or invalid image file"⟩, none, false⟩ := by
  simp [remove_all_metadata, h]

/-- Claim C4 witness: the theorem applied to the concrete zero-byte-file
environment. -/
theorem unclassified_input_fails_before_output_witness :
    remove_all_metadata unclassifiedEnv ("input/empty.bin", "output") =
      ⟨⟨false, basename ("input/empty.bin", "output").1,
        some "Unsupported or invalid image file"⟩, none, false⟩ :=
  unclassified_input_fails_before_output unclassifiedEnv ("input/empty.bin", "output") rfl

/-- Claim C8: whenever the Sanitizer reports success, the returned triple
is exactly `(true, basename inputPath, none)`. -/
theorem success_result_is_basename_triple (env : SanitizerEnv)
    (t : String × String)
    (h : (remove_all_metadata env t).result.success = true) :
    (remove_all_metadata env t).result = ⟨true, basename t.1, none⟩ := by
  obtain ⟨ir, pk, dr, sr, pr, osn, xo, ur, odc⟩ := env
  rcases ir with e | _ | ty <;> rcases dr with e2 | u2 <;> rcases sr with e3 | u3 <;>
    rcases xo with _ | _ | m <;> by_cases hosn : osn = "posix" <;>
    simp_all [remove_all_metadata]

/-- Claim C8 witness: the theorem applied to the all-successful concrete
environment. -/
theorem success_result_is_basename_triple_witness :
    (remove_all_metadata okEnv ("input/photo.png", "output")).result =
      ⟨true, basename ("input/photo.png", "output").1, none⟩ :=
  success_result_is_basename_triple okEnv ("input/photo.png", "output") rfl

/-- Claim C3 counterexample: on a POSIX host where the `xattr` executable
is absent, an input that completes classification, decode and save (steps
1–5) is nevertheless reported as a failed `TaskResult` — the
`FileNotFoundError` from `subprocess.run` is not a `CalledProcessError`,
escapes the inner handler, and is converted by the outer handler. -/
theorem xattr_absent_downgrades_success :
    xattrAbsentEnv.osName = "posix" ∧
    xattrAbsentEnv.decodeResult = Except.ok () ∧
    xattrAbsentEnv.saveResult = Except.ok () ∧
    (remove_all_metadata xattrAbsentEnv ("input/photo.png", "output")).result =
      ⟨false, "photo.png", some "[Errno 2] No such file or directory: 'xattr'"⟩ :=
  ⟨rfl, rfl, rfl, rfl⟩

/-- Claim C3 (amended): for every input that completes decode, re-encode
and write, the JPEG metadata-strip pass and the timestamp reset never
downgrade the success, and neither does a nonzero exit of the `xattr`
utility; but if invoking the utility raises any other exception (e.g. the
utility is absent on a POSIX host), the task is reported as failed, so
success is additionally conditional on the `xattr` invocation not raising. -/
theorem cleanup_never_downgrades_unless_xattr_raises (env : SanitizerEnv)
    (t : String × String) (fmt : String)
    (hc : env.imghdrResult = Except.ok (some fmt))
    (hd : env.decodeResult = Except.ok ())
    (hs : env.saveResult = Except.ok ())
    (hx : ∀ m, env.xattrOutcome ≠ SubprocessOutcome.raised m) :
    (remove_all_metadata env t).result = ⟨true, basename t.1, none⟩ := by
  obtain ⟨ir, pk, dr, sr, pr, osn, xo, ur, odc⟩ := env
  subst hc hd hs
  rcases xo with _ | _ | m <;> by_cases hosn : osn = "posix" <;>
    simp_all [remove_all_metadata]

/-- Claim C3 witness: the amended theorem applied to a concrete environment
whose piexif pass fails, whose `xattr` invocation exits nonzero, and whose
timestamp reset fails — none of which downgrades the success. -/
theorem cleanup_never_downgrades_unless_xattr_raises_witness :
    (remove_all_metadata
      ⟨Except.ok (some "jpeg"), pickZero, Except.ok (), Except.ok (),
        Except.error "Invalid JPEG marker", "posix",
        SubprocessOutcome.calledProcessError, Except.error "read-only filesystem", []⟩
      ("input/pic.jpeg", "output")).result =
      ⟨true, basename ("input/pic.jpeg", "output").1, none⟩ :=
  cleanup_never_downgrades_unless_xattr_raises
    ⟨Except.ok (some "jpeg"), pickZero, Except.ok (), Except.ok (),
      Except.error "Invalid JPEG marker", "posix",
      SubprocessOutcome.calledProcessError, Except.error "read-only filesystem", []⟩
    ("input/pic.jpeg", "output") "jpeg" rfl rfl rfl (by intro m h; cases h)

/-- Claim C5: for every successfully classified input, the generated output
filename is a 20-character string over ASCII letters and digits followed by
a dot and the detected type; and the Sanitizer's behaviour is independent
of the existing contents of the output directory (no collision check). -/
theorem output_filename_random20_alphanumeric_ext (env : SanitizerEnv)
    (t : String × String) (fmt : String)
    (hc : env.imghdrResult = Except.ok (some fmt)) :
    ∃ name, (remove_all_metadata env t).outputFilename = some (name ++ "." ++ fmt) ∧
      name.length = 20 ∧ (∀ c ∈ name.data, c ∈ alphabet) ∧
      ∀ contents, remove_all_metadata (setDirContents env contents) t =
        remove_all_metadata env t := by
  refine ⟨random_string env.pick 20, ?_, ?_, ?_, fun contents => rfl⟩
  · obtain ⟨ir, pk, dr, sr, pr, osn, xo, ur, odc⟩ := env
    subst hc
    rcases dr with e2 | u2 <;> rcases sr with e3 | u3 <;>
      rcases xo with _ | _ | m <;> by_cases hosn : osn = "posix" <;>
      simp_all [remove_all_metadata]
  · rfl
  · intro c hc'
    have hc2 : c ∈ (List.range 20).map (fun i => alphabet.get (env.pick i)) := hc'
    rcases List.mem_map.1 hc2 with ⟨i, _, rfl⟩
    exact List.get_mem _ _ _

/-- Claim C5 witness: the theorem applied to the all-successful concrete
environment, whose detected type is `png`. -/
theorem output_filename_random20_alphanumeric_ext_witness :
    ∃ name, (remove_all_metadata okEnv ("input/photo.png", "output")).outputFilename =
        some (name ++ "." ++ "png") ∧
      name.length = 20 ∧ (∀ c ∈ name.data, c ∈ alphabet) ∧
      ∀ contents, remove_all_metadata (setDirContents okEnv contents)
          ("input/photo.png", "output") =
        remove_all_metadata okEnv ("input/photo.png", "output") :=
  output_filename_random20_alphanumeric_ext okEnv ("input/photo.png", "output") "png" rfl

/-- Claim C2 (code bug): with zero recognized image files, the task list is
empty, `num_processes = min(cpu_count(), 0) = 0`, and constructing
`Pool(processes=0)` raises `ValueError`, which nothing in `process_folder`
catches — no summary (`total=0, success=0, failure=0`) is ever printed. -/
theorem process_folder_zero_tasks_raises :
    collect_image_files "input" "output" emptyDirEnv.entries = [] ∧
    process_folder emptyDirEnv "input" "output" =
      Except.error "Number of processes must be at least 1" :=
  ⟨rfl, rfl⟩

/-- Claim C6: an entry that is not a regular file, or whose content does
not classify as a known image (`imghdr.what` returns `None` or raises),
contributes nothing: inserting such an entry anywhere in the directory
listing changes neither the task list nor the result of `process_folder`
(so no task, no output, and no failure line in the summary). -/
theorem enumeration_skips_nonfiles_and_nonimages
    (mkdirs : Except String Unit) (cpu : Nat)
    (te : String × String → SanitizerEnv) (inF outF : String)
    (pre post : List DirEntry) (e : DirEntry) (h : skippedEntry e) :
    entryTask inF outF e = none ∧
    collect_image_files inF outF (pre ++ e :: post) =
      collect_image_files inF outF (pre ++ post) ∧
    process_folder ⟨mkdirs, pre ++ e :: post, cpu, te⟩ inF outF =
      process_folder ⟨mkdirs, pre ++ post, cpu, te⟩ inF outF := by
  have hnone : entryTask inF outF e = none := by
    rcases h with h | h | ⟨s, h⟩ <;> simp [entryTask, h]
  have hcol : collect_image_files inF outF (pre ++ e :: post) =
      collect_image_files inF outF (pre ++ post) := by
    simp [collect_image_files, List.filterMap_append, List.filterMap_cons, hnone]
  refine ⟨hnone, hcol, ?_⟩
  rcases mkdirs with e0 | u
  · rfl
  · simp only [process_folder, hcol, pool_map_results]

/-- Claim C6 witness: the theorem applied to a concrete non-image text
file inserted between two recognized images. -/
theorem enumeration_skips_nonfiles_and_nonimages_witness :
    entryTask "input" "output" ⟨"notes.txt", true, Except.ok none⟩ = none ∧
    collect_image_files "input" "output"
        ([⟨"a.png", true, Except.ok (some "png")⟩] ++
          ⟨"notes.txt", true, Except.ok none⟩ :: [⟨"b.png", true, Except.ok (some "png")⟩]) =
      collect_image_files "input" "output"
        ([⟨"a.png", true, Except.ok (some "png")⟩] ++ [⟨"b.png", true, Except.ok (some "png")⟩]) ∧
    process_folder ⟨Except.ok (), [⟨"a.png", true, Except.ok (some "png")⟩] ++
        ⟨"notes.txt", true, Except.ok none⟩ :: [⟨"b.png", true, Except.ok (some "png")⟩],
        8, fun _ => okEnv⟩ "input" "output" =
      process_folder ⟨Except.ok (), [⟨"a.png", true, Except.ok (some "png")⟩] ++
        [⟨"b.png", true, Except.ok (some "png")⟩], 8, fun _ => okEnv⟩ "input" "output" :=
  enumeration_skips_nonfiles_and_nonimages (Except.ok ()) 8 (fun _ => okEnv)
    "input" "output" [⟨"a.png", true, Except.ok (some "png")⟩]
    [⟨"b.png", true, Except.ok (some "png")⟩] ⟨"notes.txt", true, Except.ok none⟩
    (Or.inr (Or.inl rfl))

/-- Claim C7: the worker count `num_processes` computed by
`process_folder` is bounded by the number of recognized image-file tasks
(and by the hardware parallelism), so no more workers are spawned than
there are tasks. -/
theorem num_processes_le_task_count (cpuCount : Nat)
    (image_files : List (String × String)) :
    num_processes cpuCount image_files ≤ image_files.length ∧
    num_processes cpuCount image_files ≤ cpuCount :=
  ⟨Nat.min_le_right _ _, Nat.min_le_left _ _⟩

/-- When directory creation succeeds and the pool is constructible
(`num_processes ≥ 1`), `process_folder` returns the summary built from the
`pool.map` results. -/
theorem process_folder_ok_of_tasks (env : DispatcherEnv) (inF outF : String)
    (hmk : env.mkdirsResult = Except.ok ())
    (hmin : ¬ num_processes env.cpuCount (collect_image_files inF outF env.entries) < 1) :
    process_folder env inF outF = Except.ok
      ⟨(pool_map_results env (collect_image_files inF outF env.entries)).length,
        ((pool_map_results env (collect_image_files inF outF env.entries)).filter
          (fun r => r.success)).length,
        ((pool_map_results env (collect_image_files inF outF env.entries)).filter
          (fun r => !r.success)).length,
        ((pool_map_results env (collect_image_files inF outF env.entries)).filter
          (fun r => !r.success)).map (fun r => (r.filename, r.errorMessage))⟩ := by
  simp only [process_folder, hmk, hmin, if_false]

/-- Claim C9: for every non-empty task list (and a constructible pool),
`pool.map` yields exactly one result per task in task-list order — the
`i`-th result is the Sanitizer's output on the `i`-th task — and the
summary's reported total equals the number of tasks. -/
theorem pool_map_one_result_per_task_in_order (env : DispatcherEnv)
    (inF outF : String)
    (hmk : env.mkdirsResult = Except.ok ())
    (hne : collect_image_files inF outF env.entries ≠ [])
    (hcpu : 1 ≤ env.cpuCount) :
    (pool_map_results env (collect_image_files inF outF env.entries)).length =
      (collect_image_files inF outF env.entries).length ∧
    (∀ i : Nat, (pool_map_results env (collect_image_files inF outF env.entries))[i]? =
      ((collect_image_files inF outF env.entries)[i]?).map
        (fun t => (remove_all_metadata (env.taskEnv t) t).result)) ∧
    ∃ s, process_folder env inF outF = Except.ok s ∧
      s.total = (collect_image_files inF outF env.entries).length := by
  have hlen : 0 < (collect_image_files inF outF env.entries).length :=
    List.length_pos.2 hne
  have hmin : ¬ num_processes env.cpuCount
      (collect_image_files inF outF env.entries) < 1 := by
    simp only [num_processes]
    omega
  refine ⟨by simp [pool_map_results], fun i => ?_, ?_⟩
  · simp [pool_map_results]
  · exact ⟨_, process_folder_ok_of_tasks env inF outF hmk hmin,
      by simp [pool_map_results]⟩

/-- Claim C9 witness: the theorem applied to a concrete directory listing
with one recognized image. -/
theorem pool_map_one_result_per_task_in_order_witness :
    (pool_map_results threeEntryEnv
        (collect_image_files "input" "output" threeEntryEnv.entries)).length =
      (collect_image_files "input" "output" threeEntryEnv.entries).length ∧
    (∀ i : Nat, (pool_map_results threeEntryEnv
        (collect_image_files "input" "output" threeEntryEnv.entries))[i]? =
      ((collect_image_files "input" "output" threeEntryEnv.entries)[i]?).map
        (fun t => (remove_all_metadata (threeEntryEnv.taskEnv t) t).result)) ∧
    ∃ s, process_folder threeEntryEnv "input" "output" = Except.ok s ∧
      s.total = (collect_image_files "input" "output" threeEntryEnv.entries).length :=
  pool_map_one_result_per_task_in_order threeEntryEnv "input" "output"
    rfl (by decide) (by decide)

/-- Claim C10: every collected result is counted in exactly one of the two
partitions, so the reported success count plus the reported failure count
equals the reported total; the failure listing has one line per failed
result; and every failed result appears in it with its filename and error
detail. -/
theorem summary_partition_counts (env : DispatcherEnv) (inF outF : String)
    (hmk : env.mkdirsResult = Except.ok ())
    (hne : collect_image_files inF outF env.entries ≠ [])
    (hcpu : 1 ≤ env.cpuCount) :
    ∃ s, process_folder env inF outF = Except.ok s ∧
      s.successCount + s.failureCount = s.total ∧
      s.failures.length = s.failureCount ∧
      (∀ r ∈ pool_map_results env (collect_image_files inF outF env.entries),
        r.success = false → (r.filename, r.errorMessage) ∈ s.failures) := by
  have hlen : 0 < (collect_image_files inF outF env.entries).length :=
    List.length_pos.2 hne
  have hmin : ¬ num_processes env.cpuCount
      (collect_image_files inF outF env.entries) < 1 := by
    simp only [num_processes]
    omega
  refine ⟨_, process_folder_ok_of_tasks env inF outF hmk hmin, ?_, ?_, ?_⟩
  · exact (List.length_eq_length_filter_add (fun r : TaskResult => r.success)).symm
  · simp
  · intro r hr hfail
    exact List.mem_map_of_mem _ (List.mem_filter.2 ⟨hr, by simp [hfail]⟩)

/-- Claim C10 witness: the theorem applied to a concrete directory listing
with one recognized image. -/
theorem summary_partition_counts_witness :
    ∃ s, process_folder threeEntryEnv "input" "output" = Except.ok s ∧
      s.successCount + s.failureCount = s.total ∧
      s.failures.length = s.failureCount ∧
      (∀ r ∈ pool_map_results threeEntryEnv
          (collect_image_files "input" "output" threeEntryEnv.entries),
        r.success = false → (r.filename, r.errorMessage) ∈ s.failures) :=
  summary_partition_counts threeEntryEnv "input" "output" rfl (by decide) (by decide)
